import Mathlib

/-!
# Verification of the RV64I emulator core (`src/emulator.rs`)

A shallow embedding of the guest execution core of the `fuzz_with_emus`
fuzzer.  The register file, the exit taxonomy, the crash classifier, the
interpreter loop `run_emu` and the emulator-level operations (`reg`,
`set_reg`, `reset`, breakpoints) are translated from `src/emulator.rs`.
Machine integers are modelled as `Nat`/`Int` with explicit reductions
modulo `2 ^ 64` (resp. `2 ^ 32`) where the source wraps.

The guest memory unit (`crate::mmu`) is declared in `src/main.rs` as
`pub mod mmu` but its file is not part of the sources available here,
so the handful of MMU operations that the interpreter calls
(`read_perms`, `read_into`, `write`, `reset`) are modelled from the
specification, section 4.B; each such definition is marked
`Modelled from the spec:` in its doc comment.
-/

/-- Sign-extend the low `w` bits of a natural number to an integer, the
way the Rust code does with its `as iN` casts and shift pairs. -/
def sext (w : Nat) (v : Nat) : Int :=
  if v % 2 ^ w < 2 ^ (w - 1) then ((v % 2 ^ w : Nat) : Int)
  else ((v % 2 ^ w : Nat) : Int) - 2 ^ w

/-- Truncating cast of an integer to an unsigned 64-bit value (`as u64`). -/
def toU64 (x : Int) : Nat := (x % 2 ^ 64).toNat

/-- Truncating cast of an integer to an unsigned 32-bit value (`as u32`). -/
def toU32 (x : Int) : Nat := (x % 2 ^ 32).toNat

/-- Permission bit `PERM_READ` (from `crate::mmu`). -/
def PERM_READ : Nat := 1
/-- Permission bit `PERM_WRITE` (from `crate::mmu`). -/
def PERM_WRITE : Nat := 2
/-- Permission bit `PERM_EXEC` (from `crate::mmu`). -/
def PERM_EXEC : Nat := 4
/-- Permission bit `PERM_RAW` (read-after-write, from `crate::mmu`). -/
def PERM_RAW : Nat := 8

/-- Dirty-block granularity, 4096 bytes (spec section 3 and glossary). -/
def DIRTY_BLOCK_SIZE : Nat := 4096

/-- Modelled from the spec: the error taxonomy raised by the MMU accessors
(spec section 7, "Memory faults"): `AddressMiss`, `ReadFault`,
`UninitFault`, `WriteFault`.  These are exactly the `VmExit` variants the
missing `crate::mmu` can produce from `read_perms`/`read_into`/`write`. -/
inductive MemErr where
  | AddressMiss (addr : Nat) (len : Nat)
  | ReadFault (addr : Nat)
  | UninitFault (addr : Nat)
  | WriteFault (addr : Nat)
deriving DecidableEq, Repr

/-- The faulting byte address carried by an MMU error; this is what
`x.is_crash().unwrap().1` extracts in `run_emu`. -/
def MemErr.crashAddr : MemErr → Nat
  | .AddressMiss a _ => a
  | .ReadFault a => a
  | .UninitFault a => a
  | .WriteFault a => a

/-- Modelled from the spec: the guest memory unit of `crate::mmu`
(spec sections 3 and 4.B).  `memory` and `perms` are byte arrays of
length `size` (modelled as functions), `dirty` is the ordered dirty-block
log, `dirty_bitmap` mirrors its membership, and `cur_alc` is the bump
allocator cursor. -/
structure Mmu where
  size : Nat
  memory : Nat → Nat
  perms : Nat → Nat
  dirty : List Nat
  dirty_bitmap : Nat → Bool
  cur_alc : Nat

/-- First byte address in `[addr, addr+len)` whose permission byte does not
contain all bits of `expect`, if any. -/
def Mmu.firstBad (m : Mmu) (expect : Nat) : Nat → Nat → Option Nat
  | _, 0 => none
  | addr, len + 1 =>
    if m.perms addr &&& expect = expect then m.firstBad expect (addr + 1) len
    else some addr

/-- Little-endian read of `len` bytes starting at `addr`. -/
def Mmu.readLE (m : Mmu) : Nat → Nat → Nat
  | _, 0 => 0
  | addr, len + 1 => m.memory addr % 256 + 256 * m.readLE (addr + 1) len

/-- Modelled from the spec: permission-checked read (spec section 4.B).
Out-of-bounds fails with `AddressMiss`; a byte missing the expected
permissions fails at the exact byte, with `UninitFault` when a read was
expected and the byte still carries `RAW`, and `ReadFault` otherwise. -/
def Mmu.read_perms (m : Mmu) (addr len expect : Nat) : Except MemErr Nat :=
  if addr + len > m.size then .error (.AddressMiss addr len)
  else
    match m.firstBad expect addr len with
    | some bad =>
      if expect &&& PERM_READ ≠ 0 ∧ m.perms bad &&& PERM_RAW ≠ 0 then
        .error (.UninitFault bad)
      else .error (.ReadFault bad)
    | none => .ok (m.readLE addr len)

/-- Modelled from the spec: `read_into` requires `READ` on every byte
(spec section 4.B). -/
def Mmu.read_into (m : Mmu) (addr len : Nat) : Except MemErr Nat :=
  m.read_perms addr len PERM_READ

/-- Modelled from the spec: the write permission check of section 4.B — a
write requires `WRITE` on every byte, checked before any byte is moved. -/
def Mmu.checkWrite (m : Mmu) (addr len : Nat) : Option MemErr :=
  if addr + len > m.size then some (.AddressMiss addr len)
  else
    match m.firstBad PERM_WRITE addr len with
    | some bad => some (.WriteFault bad)
    | none => none

/-- Modelled from the spec: store of one byte — updates the byte, promotes
`RAW` to `READ` on that byte, and records the touched dirty block (spec
section 4.B). -/
def Mmu.storeByte (m : Mmu) (addr v : Nat) : Mmu :=
  let p := m.perms addr
  let m1 : Mmu :=
    { m with
      memory := Function.update m.memory addr (v % 256)
      perms :=
        if p &&& PERM_RAW ≠ 0 then Function.update m.perms addr (p ||| PERM_READ)
        else m.perms }
  let block := addr / DIRTY_BLOCK_SIZE
  if m1.dirty_bitmap block then m1
  else
    { m1 with
      dirty := m1.dirty ++ [block]
      dirty_bitmap := Function.update m1.dirty_bitmap block true }

/-- Little-endian store of the low `len` bytes of `v` starting at `addr`. -/
def Mmu.storeLE (m : Mmu) : Nat → Nat → Nat → Mmu
  | _, 0, _ => m
  | addr, len + 1, v => (m.storeByte addr (v % 256)).storeLE (addr + 1) len (v / 256)

/-- Modelled from the spec: permission-checked write (spec section 4.B). -/
def Mmu.write (m : Mmu) (addr len v : Nat) : Except MemErr Mmu :=
  match m.checkWrite addr len with
  | some e => .error e
  | none => .ok (m.storeLE addr len v)

/-- Membership test used by `Mmu.reset`. -/
def inDirty (dirty : List Nat) (block : Nat) : Bool := dirty.contains block

/-- Modelled from the spec: `reset(against snapshot)` restores memory and
permissions of every block in the dirty log from the snapshot, clears the
bitmap bits of those blocks, truncates the log, and restores the
allocator cursor (spec section 4.B). -/
def Mmu.reset (m other : Mmu) : Mmu :=
  { m with
    memory := fun a =>
      if inDirty m.dirty (a / DIRTY_BLOCK_SIZE) then other.memory a else m.memory a
    perms := fun a =>
      if inDirty m.dirty (a / DIRTY_BLOCK_SIZE) then other.perms a else m.perms a
    dirty := []
    dirty_bitmap := fun b => if inDirty m.dirty b then false else m.dirty_bitmap b
    cur_alc := other.cur_alc }

/-- Reasons why the VM exited (`VmExit` in `src/emulator.rs`).
Addresses (`VirtAddr`) are modelled as `Nat`. -/
inductive VmExit where
  | Syscall
  | Exit
  | Ebreak
  | Timeout
  | InvalidOpcode
  | InvalidFree (addr : Nat)
  | SyscallIntegerOverflow
  | AddressIntegerOverflow
  | AddressMiss (addr : Nat) (len : Nat)
  | ReadFault (addr : Nat)
  | ExecFault (addr : Nat)
  | UninitFault (addr : Nat)
  | WriteFault (addr : Nat)
deriving DecidableEq, Repr

/-- Injection of the MMU error taxonomy into `VmExit` (in the source the
MMU returns `VmExit` values directly). -/
def MemErr.toVmExit : MemErr → VmExit
  | .AddressMiss a l => .AddressMiss a l
  | .ReadFault a => .ReadFault a
  | .UninitFault a => .UninitFault a
  | .WriteFault a => .WriteFault a

/-- Different types of faults (`FaultType` in `src/emulator.rs`). -/
inductive FaultType where
  | Bounds
  | Free
  | InvalidOpcode
  | Exec
  | Read
  | Write
  | Uninit
deriving DecidableEq, Repr

/-- Different buckets for addresses (`AddressType` in `src/emulator.rs`). -/
inductive AddressType where
  | Null
  | Negative
  | Normal
deriving DecidableEq, Repr

/-- `impl From<VirtAddr> for AddressType`: bucket an address by its value
as a signed 64-bit integer (`val.0 as i64`). -/
def AddressType.ofAddr (a : Nat) : AddressType :=
  let x := sext 64 a
  if 0 ≤ x ∧ x ≤ 32767 then .Null
  else if -32768 ≤ x ∧ x ≤ -1 then .Negative
  else .Normal

/-- `VmExit::is_crash`: if this is a crash, the faulting address and the
fault type. -/
def VmExit.is_crash : VmExit → Option (FaultType × Nat)
  | .AddressMiss addr _ => some (.Bounds, addr)
  | .ReadFault addr => some (.Read, addr)
  | .ExecFault addr => some (.Exec, addr)
  | .UninitFault addr => some (.Uninit, addr)
  | .WriteFault addr => some (.Write, addr)
  | .InvalidFree addr => some (.Free, addr)
  | .InvalidOpcode => some (.InvalidOpcode, 0)
  | _ => none

/-- 64-bit RISC-V registers: x0..x31 plus the PC at index 32
(`Register` in `src/emulator.rs`). -/
abbrev Register := Fin 33

/-- `Register::Zero` (x0). -/
def Register.Zero : Register := ⟨0, by decide⟩

/-- `Register::Pc` (index 32). -/
def Register.Pc : Register := ⟨32, by decide⟩

/-- `impl From<u32> for Register` (the decoder only passes 5-bit fields,
which are always `< 33`). -/
def Register.ofBits (v : Nat) : Register := ⟨v % 33, Nat.mod_lt _ (by decide)⟩

/-- The 33-slot register array of the guest state. -/
abbrev RegFile := Register → Nat

/-- Read of a register slot, with slot 0 hard-wired to zero
(the body of `Emulator::reg`). -/
def regGet (regs : RegFile) (r : Register) : Nat :=
  if r ≠ Register.Zero then regs r else 0

/-- Write of a register slot, with writes to slot 0 silently dropped
(the body of `Emulator::set_reg`). -/
def regSet (regs : RegFile) (r : Register) (v : Nat) : RegFile :=
  if r ≠ Register.Zero then Function.update regs r v else regs

/-- An R-type instruction (`Rtype` in `src/emulator.rs`). -/
structure Rtype where
  funct7 : Nat
  rs2 : Register
  rs1 : Register
  funct3 : Nat
  rd : Register

/-- `impl From<u32> for Rtype`. -/
def Rtype.ofInst (inst : Nat) : Rtype :=
  { funct7 := (inst >>> 25) &&& 0x7f
    rs2 := Register.ofBits ((inst >>> 20) &&& 0x1f)
    rs1 := Register.ofBits ((inst >>> 15) &&& 0x1f)
    funct3 := (inst >>> 12) &&& 0x7
    rd := Register.ofBits ((inst >>> 7) &&& 0x1f) }

/-- An S-type instruction (`Stype` in `src/emulator.rs`); the source
sign-extends the 12-bit immediate with a `<< 20 >> 20` shift pair on
`i32`, which is `sext 12` of the assembled bits. -/
structure Stype where
  imm : Int
  rs2 : Register
  rs1 : Register
  funct3 : Nat

/-- `impl From<u32> for Stype`. -/
def Stype.ofInst (inst : Nat) : Stype :=
  { imm := sext 12 ((((inst >>> 25) &&& 0x7f) <<< 5) ||| ((inst >>> 7) &&& 0x1f))
    rs2 := Register.ofBits ((inst >>> 20) &&& 0x1f)
    rs1 := Register.ofBits ((inst >>> 15) &&& 0x1f)
    funct3 := (inst >>> 12) &&& 0x7 }

/-- A J-type instruction (`Jtype` in `src/emulator.rs`); the 21-bit
immediate is sign-extended by a `<< 11 >> 11` shift pair on `i32`. -/
structure Jtype where
  imm : Int
  rd : Register

/-- `impl From<u32> for Jtype`. -/
def Jtype.ofInst (inst : Nat) : Jtype :=
  { imm := sext 21
      ((((inst >>> 31) &&& 1) <<< 20) ||| ((((inst >>> 12) &&& 0xff)) <<< 12) |||
       (((inst >>> 20) &&& 1) <<< 11) ||| (((inst >>> 21) &&& 0x3ff) <<< 1))
    rd := Register.ofBits ((inst >>> 7) &&& 0x1f) }

/-- A B-type instruction (`Btype` in `src/emulator.rs`); the 13-bit
immediate is sign-extended by a `<< 19 >> 19` shift pair on `i32`. -/
structure Btype where
  imm : Int
  rs2 : Register
  rs1 : Register
  funct3 : Nat

/-- `impl From<u32> for Btype`. -/
def Btype.ofInst (inst : Nat) : Btype :=
  { imm := sext 13
      ((((inst >>> 31) &&& 1) <<< 12) ||| (((inst >>> 7) &&& 1) <<< 11) |||
       (((inst >>> 25) &&& 0x3f) <<< 5) ||| (((inst >>> 8) &&& 0xf) <<< 1))
    rs2 := Register.ofBits ((inst >>> 20) &&& 0x1f)
    rs1 := Register.ofBits ((inst >>> 15) &&& 0x1f)
    funct3 := (inst >>> 12) &&& 0x7 }

/-- An I-type instruction (`Itype` in `src/emulator.rs`); the source
computes `(inst as i32) >> 20`, an arithmetic shift, which equals the
sign-extension of the top twelve bits. -/
structure Itype where
  imm : Int
  rs1 : Register
  funct3 : Nat
  rd : Register

/-- `impl From<u32> for Itype`. -/
def Itype.ofInst (inst : Nat) : Itype :=
  { imm := sext 12 ((inst >>> 20) &&& 0xfff)
    rs1 := Register.ofBits ((inst >>> 15) &&& 0x1f)
    funct3 := (inst >>> 12) &&& 0x7
    rd := Register.ofBits ((inst >>> 7) &&& 0x1f) }

/-- A U-type instruction (`Utype` in `src/emulator.rs`); the immediate is
`(inst & !0xfff) as i32`. -/
structure Utype where
  imm : Int
  rd : Register

/-- `impl From<u32> for Utype`. -/
def Utype.ofInst (inst : Nat) : Utype :=
  { imm := sext 32 (inst &&& 0xfffff000)
    rd := Register.ofBits ((inst >>> 7) &&& 0x1f) }

/-- Outcome of executing one decoded instruction: fall through to the PC
post-increment, fall through after an explicit PC write (the source's
`continue 'next_inst`), surface a `VmExit`, or hit a Rust `panic!` /
`unreachable!` / `unimplemented!`. -/
inductive StepRes where
  | ok (regs : RegFile) (m : Mmu) (jumped : Bool)
  | vmexit (e : VmExit)
  | panicMsg (msg : String)

/-- Match arm for opcode `0b1100011` of `run_emu` (conditional
branches). -/
def execBranch (pc : Nat) (i : Btype) (regs : RegFile) (m : Mmu) : StepRes :=
  let rs1 := regGet regs i.rs1
  let rs2 := regGet regs i.rs2
  let target := regSet regs Register.Pc ((pc + toU64 i.imm) % 2 ^ 64)
  match i.funct3 with
  | 0b000 => if rs1 = rs2 then .ok target m true else .ok regs m false
  | 0b001 => if rs1 ≠ rs2 then .ok target m true else .ok regs m false
  | 0b100 => if sext 64 rs1 < sext 64 rs2 then .ok target m true else .ok regs m false
  | 0b101 => if sext 64 rs1 ≥ sext 64 rs2 then .ok target m true else .ok regs m false
  | 0b110 => if rs1 < rs2 then .ok target m true else .ok regs m false
  | 0b111 => if rs1 ≥ rs2 then .ok target m true else .ok regs m false
  | _ => .panicMsg "Unexpected 0b1100011"

/-- Result handling shared by the seven load arms: fault or write-back. -/
def loadStep (regs : RegFile) (m : Mmu) (rd : Register) (addr w : Nat)
    (conv : Nat → Nat) : StepRes :=
  match m.read_into addr w with
  | .error e => .vmexit e.toVmExit
  | .ok v => .ok (regSet regs rd (conv v)) m false

/-- Match arm for opcode `0b0000011` of `run_emu` (loads: LB, LH, LW, LD,
LBU, LHU, LWU). -/
def execLoad (i : Itype) (regs : RegFile) (m : Mmu) : StepRes :=
  let addr := (regGet regs i.rs1 + toU64 i.imm) % 2 ^ 64
  match i.funct3 with
  | 0b000 => loadStep regs m i.rd addr 1 (fun v => toU64 (sext 8 v))
  | 0b001 => loadStep regs m i.rd addr 2 (fun v => toU64 (sext 16 v))
  | 0b010 => loadStep regs m i.rd addr 4 (fun v => toU64 (sext 32 v))
  | 0b011 => loadStep regs m i.rd addr 8 (fun v => toU64 (sext 64 v))
  | 0b100 => loadStep regs m i.rd addr 1 (fun v => v)
  | 0b101 => loadStep regs m i.rd addr 2 (fun v => v)
  | 0b110 => loadStep regs m i.rd addr 4 (fun v => v)
  | _ => .panicMsg "Unexpected 0b0000011"

/-- Result handling shared by the four store arms: fault or new memory. -/
def storeStep (regs : RegFile) (m : Mmu) (addr w v : Nat) : StepRes :=
  match m.write addr w v with
  | .error e => .vmexit e.toVmExit
  | .ok m1 => .ok regs m1 false

/-- Match arm for opcode `0b0100011` of `run_emu` (stores: SB, SH, SW,
SD; the stored value is the truncation of rs2 to the access width). -/
def execStore (i : Stype) (regs : RegFile) (m : Mmu) : StepRes :=
  let addr := (regGet regs i.rs1 + toU64 i.imm) % 2 ^ 64
  match i.funct3 with
  | 0b000 => storeStep regs m addr 1 (regGet regs i.rs2 % 2 ^ 8)
  | 0b001 => storeStep regs m addr 2 (regGet regs i.rs2 % 2 ^ 16)
  | 0b010 => storeStep regs m addr 4 (regGet regs i.rs2 % 2 ^ 32)
  | 0b011 => storeStep regs m addr 8 (regGet regs i.rs2 % 2 ^ 64)
  | _ => .panicMsg "Unexpected 0b0100011"

/-- Match arm for opcode `0b0010011` of `run_emu` (register-immediate
ALU operations).  The shift-mode field is read off instruction bits
26..31, which agrees with the source's `(imm >> 6) & 0b111111`; the shift
amount is bits 20..25, the source's `imm & 0b111111`. -/
def execOpImm (inst : Nat) (i : Itype) (regs : RegFile) (m : Mmu) : StepRes :=
  let rs1 := regGet regs i.rs1
  let imm := toU64 i.imm
  match i.funct3 with
  | 0b000 =>
    -- ADDI
    .ok (regSet regs i.rd ((rs1 + imm) % 2 ^ 64)) m false
  | 0b010 =>
    -- SLTI
    .ok (regSet regs i.rd (if sext 64 rs1 < i.imm then 1 else 0)) m false
  | 0b011 =>
    -- SLTIU
    .ok (regSet regs i.rd (if rs1 < imm then 1 else 0)) m false
  | 0b100 =>
    -- XORI
    .ok (regSet regs i.rd (rs1 ^^^ imm)) m false
  | 0b110 =>
    -- ORI
    .ok (regSet regs i.rd (rs1 ||| imm)) m false
  | 0b111 =>
    -- ANDI
    .ok (regSet regs i.rd (rs1 &&& imm)) m false
  | 0b001 =>
    (match (inst >>> 26) &&& 0x3f with
     | 0b000000 =>
       -- SLLI
       .ok (regSet regs i.rd ((rs1 <<< ((inst >>> 20) &&& 0x3f)) % 2 ^ 64)) m false
     | _ => .panicMsg "unreachable")
  | 0b101 =>
    (match (inst >>> 26) &&& 0x3f with
     | 0b000000 =>
       -- SRLI
       .ok (regSet regs i.rd (rs1 >>> ((inst >>> 20) &&& 0x3f))) m false
     | 0b010000 =>
       -- SRAI
       .ok (regSet regs i.rd (toU64 (sext 64 rs1 >>> ((inst >>> 20) &&& 0x3f)))) m false
     | _ => .panicMsg "unreachable")
  | _ => .panicMsg "unreachable"

/-- Match arm for opcode `0b0110011` of `run_emu` (register-register ALU
operations, dispatched on `(funct7, funct3)` like the source). -/
def execOp (i : Rtype) (regs : RegFile) (m : Mmu) : StepRes :=
  let rs1 := regGet regs i.rs1
  let rs2 := regGet regs i.rs2
  match i.funct7, i.funct3 with
  | 0b0000000, 0b000 =>
    -- ADD
    .ok (regSet regs i.rd ((rs1 + rs2) % 2 ^ 64)) m false
  | 0b0100000, 0b000 =>
    -- SUB
    .ok (regSet regs i.rd (toU64 ((rs1 : Int) - (rs2 : Int)))) m false
  | 0b0000000, 0b001 =>
    -- SLL
    .ok (regSet regs i.rd ((rs1 <<< (rs2 &&& 0x3f)) % 2 ^ 64)) m false
  | 0b0000000, 0b010 =>
    -- SLT
    .ok (regSet regs i.rd (if sext 64 rs1 < sext 64 rs2 then 1 else 0)) m false
  | 0b0000000, 0b011 =>
    -- SLTU
    .ok (regSet regs i.rd (if rs1 < rs2 then 1 else 0)) m false
  | 0b0000000, 0b100 =>
    -- XOR
    .ok (regSet regs i.rd (rs1 ^^^ rs2)) m false
  | 0b0000000, 0b101 =>
    -- SRL
    .ok (regSet regs i.rd (rs1 >>> (rs2 &&& 0x3f))) m false
  | 0b0100000, 0b101 =>
    -- SRA
    .ok (regSet regs i.rd (toU64 (sext 64 rs1 >>> (rs2 &&& 0x3f)))) m false
  | 0b0000000, 0b110 =>
    -- OR
    .ok (regSet regs i.rd (rs1 ||| rs2)) m false
  | 0b0000000, 0b111 =>
    -- AND
    .ok (regSet regs i.rd (rs1 &&& rs2)) m false
  | _, _ => .panicMsg "unreachable"

/-- Match arm for opcode `0b0111011` of `run_emu` (32-bit
register-register ALU operations; operands truncated to `u32`, results
sign-extended from 32 bits). -/
def execOp32 (i : Rtype) (regs : RegFile) (m : Mmu) : StepRes :=
  let rs1 := regGet regs i.rs1 % 2 ^ 32
  let rs2 := regGet regs i.rs2 % 2 ^ 32
  match i.funct7, i.funct3 with
  | 0b0000000, 0b000 =>
    -- ADDW
    .ok (regSet regs i.rd (toU64 (sext 32 ((rs1 + rs2) % 2 ^ 32)))) m false
  | 0b0100000, 0b000 =>
    -- SUBW
    .ok (regSet regs i.rd (toU64 (sext 32 (toU32 ((rs1 : Int) - (rs2 : Int)))))) m false
  | 0b0000000, 0b001 =>
    -- SLLW
    .ok (regSet regs i.rd (toU64 (sext 32 ((rs1 <<< (rs2 &&& 0x1f)) % 2 ^ 32)))) m false
  | 0b0000000, 0b101 =>
    -- SRLW
    .ok (regSet regs i.rd (toU64 (sext 32 (rs1 >>> (rs2 &&& 0x1f))))) m false
  | 0b0100000, 0b101 =>
    -- SRAW
    .ok (regSet regs i.rd (toU64 (sext 32 rs1 >>> (rs2 &&& 0x1f)))) m false
  | _, _ => .panicMsg "unreachable"

/-- Match arm for opcode `0b0011011` of `run_emu` (32-bit
register-immediate ALU operations).  The shift-mode field is instruction
bits 25..31, the source's `(imm >> 5) & 0b1111111`; the shift amount is
bits 20..24, the source's `imm & 0b11111`. -/
def execOpImm32 (inst : Nat) (i : Itype) (regs : RegFile) (m : Mmu) : StepRes :=
  let rs1 := regGet regs i.rs1 % 2 ^ 32
  let imm := toU32 i.imm
  match i.funct3 with
  | 0b000 =>
    -- ADDIW
    .ok (regSet regs i.rd (toU64 (sext 32 ((rs1 + imm) % 2 ^ 32)))) m false
  | 0b001 =>
    (match (inst >>> 25) &&& 0x7f with
     | 0b0000000 =>
       -- SLLIW
       .ok (regSet regs i.rd (toU64 (sext 32 ((rs1 <<< ((inst >>> 20) &&& 0x1f)) % 2 ^ 32)))) m false
     | _ => .panicMsg "unreachable")
  | 0b101 =>
    (match (inst >>> 25) &&& 0x7f with
     | 0b0000000 =>
       -- SRLIW
       .ok (regSet regs i.rd (toU64 (sext 32 (rs1 >>> ((inst >>> 20) &&& 0x1f))))) m false
     | 0b0100000 =>
       -- SRAIW
       .ok (regSet regs i.rd (toU64 (sext 32 rs1 >>> ((inst >>> 20) &&& 0x1f)))) m false
     | _ => .panicMsg "unreachable")
  | _ => .panicMsg "unreachable"

/-- Match arm for opcode `0b1110011` of `run_emu`: ECALL returns the
`Syscall` exit; EBREAK is `panic!("EBREAK")` in the source. -/
def execSystem (inst : Nat) : StepRes :=
  if inst = 0b00000000000000000000000001110011 then .vmexit .Syscall
  else if inst = 0b00000000000100000000000001110011 then .panicMsg "EBREAK"
  else .panicMsg "unreachable"

/-- The per-instruction dispatch of `run_emu` (`src/emulator.rs` lines
633..1073): the `match opcode` body of the interpreter loop, operating on
the register array and the MMU.  `pc` is the fetched program counter and
`inst` the fetched 32-bit instruction; each sizable match arm of the
source is its own definition above. -/
def execInst (pc inst : Nat) (regs : RegFile) (m : Mmu) : StepRes :=
  match inst &&& 0x7f with
  | 0b0110111 =>
    -- LUI
    let i := Utype.ofInst inst
    .ok (regSet regs i.rd (toU64 i.imm)) m false
  | 0b0010111 =>
    -- AUIPC
    let i := Utype.ofInst inst
    .ok (regSet regs i.rd ((toU64 i.imm + pc) % 2 ^ 64)) m false
  | 0b1101111 =>
    -- JAL
    let i := Jtype.ofInst inst
    let regs1 := regSet regs i.rd ((pc + 4) % 2 ^ 64)
    .ok (regSet regs1 Register.Pc ((pc + toU64 i.imm) % 2 ^ 64)) m true
  | 0b1100111 =>
    let i := Itype.ofInst inst
    (match i.funct3 with
     | 0b000 =>
       -- JALR
       let target := (regGet regs i.rs1 + toU64 i.imm) % 2 ^ 64
       let regs1 := regSet regs i.rd ((pc + 4) % 2 ^ 64)
       .ok (regSet regs1 Register.Pc target) m true
     | _ => .panicMsg "Unexpected 0b1100111")
  | 0b1100011 => execBranch pc (Btype.ofInst inst) regs m
  | 0b0000011 => execLoad (Itype.ofInst inst) regs m
  | 0b0100011 => execStore (Stype.ofInst inst) regs m
  | 0b0010011 => execOpImm inst (Itype.ofInst inst) regs m
  | 0b0110011 => execOp (Rtype.ofInst inst) regs m
  | 0b0111011 => execOp32 (Rtype.ofInst inst) regs m
  | 0b0001111 =>
    (match (Itype.ofInst inst).funct3 with
     | 0b000 =>
       -- FENCE
       .ok regs m false
     | _ => .panicMsg "unreachable")
  | 0b1110011 => execSystem inst
  | 0b0011011 => execOpImm32 inst (Itype.ofInst inst) regs m
  | _ => .panicMsg "Unhandled opcode"

/-- `ExitReason` in `src/emulator.rs`: the exit tag shared with the JIT
through the guest-state record. -/
inductive ExitReason where
  | None
  | IndirectBranch
  | ReadFault
  | WriteFault
  | Ecall
  | Ebreak
  | Timeout
  | Breakpoint
  | InvalidOpcode
  | Coverage
deriving DecidableEq, Repr

/-- `GuestState` in `src/emulator.rs`: the `repr(C)` record shared with the
JIT.  The raw host pointers of the Rust struct are modelled as plain
numbers; only their being left untouched matters to the interpreter. -/
structure GuestState where
  exit_reason : ExitReason
  reenter_pc : Nat
  cov_from : Nat
  cov_to : Nat
  regs : RegFile
  memory : Nat
  permissions : Nat
  dirty : Nat
  dirty_idx : Nat
  dirty_bitmap : Nat
  trace_buffer : Nat
  trace_idx : Nat
  trace_len : Nat
  cov_bitmap : Nat
  instrs_execed : Nat
  timeout : Nat

/-- `impl Default for GuestState`. -/
def GuestState.default : GuestState :=
  { exit_reason := .None
    reenter_pc := 0
    cov_from := 0
    cov_to := 0
    regs := fun _ => 0
    memory := 0
    permissions := 0
    dirty := 0
    dirty_idx := 0
    dirty_bitmap := 0
    trace_buffer := 0
    trace_idx := 0
    trace_len := 0
    cov_bitmap := 0
    instrs_execed := 0
    timeout := 50000000 }

/-- An open file (`EmuFile` in `src/emulator.rs`). -/
inductive EmuFile where
  | Stdin
  | Stdout
  | Stderr
  | FuzzInput (cursor : Nat)
deriving DecidableEq, Repr

/-- A list of all open files (`Files` in `src/emulator.rs`), indexed by
file descriptor. -/
structure Files where
  toList : List (Option EmuFile)
deriving DecidableEq, Repr

/-- A breakpoint callback.  In the source it is
`fn(&mut Emulator) -> Result<(), VmExit>`; callbacks live outside
`emulator.rs` and can reach the emulator only through its public API
(`reg`/`set_reg` and the public `memory` field — the `state` record and
its non-register fields are private), so a callback is modelled as a
function of the register array and the MMU that returns the mutated pair
together with an optional early `VmExit` (the `Err` case of the Rust
callback). -/
def BreakpointCallback := RegFile → Mmu → RegFile × Mmu × Option VmExit

/-- All the state of the emulated system (`Emulator` in
`src/emulator.rs`).  The JIT-cache handle is omitted (`run_emu` never
touches it) and the trace buffer is absent because `ENABLE_TRACING` is
`false` as built.  Breakpoints are an association list keyed by guest PC
(a `BTreeMap` in the source). -/
structure Emulator where
  memory : Mmu
  state : GuestState
  fuzz_input : List Nat
  files : Files
  breakpoints : List (Nat × BreakpointCallback)

/-- `Emulator::reg`: get a register from the guest (register 0 reads 0). -/
def Emulator.reg (emu : Emulator) (r : Register) : Nat :=
  regGet emu.state.regs r

/-- `Emulator::set_reg`: set a register in the guest (writes to register 0
are dropped). -/
def Emulator.set_reg (emu : Emulator) (r : Register) (v : Nat) : Emulator :=
  { emu with state := { emu.state with regs := regSet emu.state.regs r v } }

/-- `Emulator::reset`: reset the state of `self` to `other`, assuming
`self` was forked off `other` — resets memory via the MMU dirty log,
copies the register array, and replaces the file table by `other`'s
(`clear` followed by `extend_from_slice`). -/
def Emulator.reset (emu other : Emulator) : Emulator :=
  { emu with
    memory := emu.memory.reset other.memory
    state := { emu.state with regs := other.state.regs }
    files := other.files }

/-- `Emulator::add_breakpoint`: register a new breakpoint callback. -/
def Emulator.add_breakpoint (emu : Emulator) (pc : Nat)
    (callback : BreakpointCallback) : Emulator :=
  { emu with breakpoints := (pc, callback) :: emu.breakpoints }

/-- Replace the register array and the MMU of an emulator: the shape of
every mutation the interpreter loop performs on the `Emulator`. -/
def updRM (emu : Emulator) (r : RegFile) (m : Mmu) : Emulator :=
  { emu with memory := m, state := { emu.state with regs := r } }

/-- `self.breakpoints.get(&VirtAddr(pc))`. -/
def lookupBp (bps : List (Nat × BreakpointCallback)) (pc : Nat) :
    Option BreakpointCallback :=
  match bps.find? (fun p => p.1 == pc) with
  | some p => some p.2
  | none => none

/-- Outcome of one pass through the body of the `'next_inst` loop of
`run_emu`: loop again, return with a `VmExit`, or hit a Rust panic. -/
inductive IterOut where
  | cont (emu : Emulator) (n : Nat)
  | stop (emu : Emulator) (n : Nat) (e : VmExit)
  | crash (emu : Emulator) (n : Nat) (msg : String)

/-- The portion of the loop body after the breakpoint check: increment the
retired-instruction counter, execute the fetched instruction, and advance
the PC by 4 unless the instruction wrote it (`continue 'next_inst`). -/
def execStep (emu : Emulator) (n : Nat) (pc inst : Nat) : IterOut :=
  let n1 := n + 1
  match execInst pc inst emu.state.regs emu.memory with
  | .ok regs1 m1 jumped =>
    if jumped then .cont (updRM emu regs1 m1) n1
    else .cont (updRM emu (regSet regs1 Register.Pc ((pc + 4) % 2 ^ 64)) m1) n1
  | .vmexit e => .stop emu n1 e
  | .panicMsg msg => .crash emu n1 msg

/-- One full pass through the body of the `'next_inst` loop of `run_emu`
(`src/emulator.rs` lines 599..1077): read the PC, check 4-byte alignment,
fetch the instruction with `PERM_EXEC` (both failures mapped to
`ExecFault` of the faulting address), run a registered breakpoint
callback and restart without counting if it moved the PC, otherwise
execute the instruction. -/
def iterOnce (emu : Emulator) (n : Nat) : IterOut :=
  let pc := emu.reg Register.Pc
  if pc % 4 ≠ 0 then .stop emu n (.ExecFault pc)
  else
    match emu.memory.read_perms pc 4 PERM_EXEC with
    | .error f => .stop emu n (.ExecFault f.crashAddr)
    | .ok inst =>
      match lookupBp emu.breakpoints pc with
      | some cb =>
        let res := cb emu.state.regs emu.memory
        let emu1 := updRM emu res.1 res.2.1
        match res.2.2 with
        | some e => .stop emu1 n e
        | none =>
          if emu1.reg Register.Pc ≠ pc then .cont emu1 n
          else execStep emu1 n pc inst
      | none => execStep emu n pc inst

/-- Result of a run of the interpreter.  `exit` is `run_emu` returning
`Err(VmExit)`; `panicked` is a Rust `panic!`/`unreachable!`/
`unimplemented!` aborting the thread; `outOfFuel` means the loop had not
returned after `fuel` iterations (the Rust loop has no bound of its
own). -/
inductive RunResult where
  | exit (emu : Emulator) (n : Nat) (e : VmExit)
  | panicked (emu : Emulator) (n : Nat) (msg : String)
  | outOfFuel (emu : Emulator) (n : Nat)

/-- `Emulator::run_emu`: run the VM using the interpreter.  `n` is the
`instrs_execed` counter passed by reference in the source; the `corpus`
argument of the source is unused by `run_emu` and therefore omitted.
The extra `fuel` argument bounds the number of loop iterations so that
the embedding is a total function. -/
def run_emu : Nat → Emulator → Nat → RunResult
  | 0, emu, n => .outOfFuel emu n
  | fuel + 1, emu, n =>
    match iterOnce emu n with
    | .cont emu1 n1 => run_emu fuel emu1 n1
    | .stop emu1 n1 e => .exit emu1 n1 e
    | .crash emu1 n1 msg => .panicked emu1 n1 msg

/-- The emulator held at the end of a run. -/
def RunResult.finalEmu : RunResult → Emulator
  | .exit emu _ _ => emu
  | .panicked emu _ _ => emu
  | .outOfFuel emu _ => emu

/-- The retired-instruction counter at the end of a run. -/
def RunResult.finalInstrs : RunResult → Nat
  | .exit _ n _ => n
  | .panicked _ n _ => n
  | .outOfFuel _ n => n

/-- The `VmExit` of a run that returned, if it did. -/
def RunResult.vmexit? : RunResult → Option VmExit
  | .exit _ _ e => some e
  | _ => none

/-- The panic message of a run that aborted, if it did. -/
def RunResult.panicked? : RunResult → Option String
  | .panicked _ _ msg => some msg
  | _ => none

/-- Apply a function to the emulator component of an `IterOut`. -/
def IterOut.mapEmu (f : Emulator → Emulator) : IterOut → IterOut
  | .cont emu n => .cont (f emu) n
  | .stop emu n e => .stop (f emu) n e
  | .crash emu n msg => .crash (f emu) n msg

/-- Apply a function to the emulator component of a `RunResult`. -/
def RunResult.mapEmu (f : Emulator → Emulator) : RunResult → RunResult
  | .exit emu n e => .exit (f emu) n e
  | .panicked emu n msg => .panicked (f emu) n msg
  | .outOfFuel emu n => .outOfFuel (f emu) n

/-- Overwrite every field of the guest-state record of `emu` except the
register array with the corresponding field of `s`. -/
def setNonRegs (emu : Emulator) (s : GuestState) : Emulator :=
  { emu with state := { s with regs := emu.state.regs } }

/-- The four little-endian bytes of a 32-bit instruction word. -/
def leBytes (w : Nat) : List Nat :=
  [w % 256, w / 256 % 256, w / 65536 % 256, w / 16777216 % 256]

/-- Flatten a list of 32-bit instruction words into guest memory bytes. -/
def progBytes (ws : List Nat) : List Nat :=
  ws.foldr (fun w acc => leBytes w ++ acc) []

/-- A small concrete emulator: `prog` loaded little-endian at address 0
with `EXEC` permission, 4 KiB of guest memory, PC at `pcv`, all other
registers zero, the three standard files open, no breakpoints. -/
def mkEmu (prog : List Nat) (pcv : Nat) : Emulator :=
  { memory :=
      { size := 4096
        memory := fun a => prog.getD a 0
        perms := fun a => if a < prog.length then PERM_EXEC else 0
        dirty := []
        dirty_bitmap := fun _ => false
        cur_alc := 0 }
    state := { GuestState.default with
               regs := fun i => if i = Register.Pc then pcv else 0 }
    fuzz_input := []
    files := ⟨[some .Stdin, some .Stdout, some .Stderr]⟩
    breakpoints := [] }

/-- `addi x1, x0, 5 ; addi x2, x1, -3 ; ecall`, the scenario of spec
section 8. -/
def c4Emu : Emulator :=
  mkEmu (progBytes [0x00500093, 0xFFD08113, 0x00000073]) 0

/-- A guest whose first instruction is EBREAK (encoding `0x00100073`). -/
def ebreakEmu : Emulator := mkEmu (progBytes [0x00100073]) 0

/-- A guest whose first instruction is ECALL, with the guest-state timeout
threshold set to zero. -/
def ecallTimeoutEmu : Emulator :=
  let e := mkEmu (progBytes [0x00000073]) 0
  { e with state := { e.state with timeout := 0 } }

/-- A guest whose PC is misaligned (PC = 2). -/
def misEmu : Emulator := mkEmu (progBytes [0x00000073]) 2

/-- A guest with no executable byte at PC = 0. -/
def npEmu : Emulator := mkEmu [] 0

/-- A callback that redirects the PC to 8 (e.g. skipping two
instructions). -/
def cbSetPc8 : BreakpointCallback :=
  fun regs m => (regSet regs Register.Pc 8, m, none)

/-- The ECALL guest with `cbSetPc8` registered at PC = 0. -/
def bpEmu : Emulator :=
  let e := mkEmu (progBytes [0x00000073]) 0
  { e with breakpoints := [(0, cbSetPc8)] }

/-- A destination-register read-out of a fall-through step result (0 when
the step did not fall through). -/
def stepReg (s : StepRes) (r : Register) : Nat :=
  match s with
  | .ok regs _ _ => regGet regs r
  | _ => 0

/-- A register file holding `a` in x5 and `b` in x6, zero elsewhere. -/
def testRegs (a b : Nat) : RegFile :=
  fun i => if i = ⟨5, by decide⟩ then a else if i = ⟨6, by decide⟩ then b else 0

/-- An empty MMU (shift instructions never touch memory). -/
def mmu0 : Mmu :=
  { size := 0, memory := fun _ => 0, perms := fun _ => 0
    dirty := [], dirty_bitmap := fun _ => false, cur_alc := 0 }

/-- Encoding of `sll x7, x5, x6`. -/
def sllInst : Nat := (6 <<< 20) ||| (5 <<< 15) ||| (1 <<< 12) ||| (7 <<< 7) ||| 0x33
/-- Encoding of `srl x7, x5, x6`. -/
def srlInst : Nat := (6 <<< 20) ||| (5 <<< 15) ||| (5 <<< 12) ||| (7 <<< 7) ||| 0x33
/-- Encoding of `sra x7, x5, x6`. -/
def sraInst : Nat :=
  (0x20 <<< 25) ||| (6 <<< 20) ||| (5 <<< 15) ||| (5 <<< 12) ||| (7 <<< 7) ||| 0x33
/-- Encoding of `sllw x7, x5, x6`. -/
def sllwInst : Nat := (6 <<< 20) ||| (5 <<< 15) ||| (1 <<< 12) ||| (7 <<< 7) ||| 0x3b
/-- Encoding of `srlw x7, x5, x6`. -/
def srlwInst : Nat := (6 <<< 20) ||| (5 <<< 15) ||| (5 <<< 12) ||| (7 <<< 7) ||| 0x3b
/-- Encoding of `sraw x7, x5, x6`. -/
def srawInst : Nat :=
  (0x20 <<< 25) ||| (6 <<< 20) ||| (5 <<< 15) ||| (5 <<< 12) ||| (7 <<< 7) ||| 0x3b

theorem regSet_zero_eq (regs : RegFile) (v : Nat) :
    regSet regs Register.Zero v = regs := by
  simp [regSet]

theorem regGet_zero_eq (regs : RegFile) : regGet regs Register.Zero = 0 := by
  simp [regGet]

theorem set_reg_slot_zero (emu : Emulator) (r : Register) (v : Nat) :
    (emu.set_reg r v).state.regs Register.Zero = emu.state.regs Register.Zero := by
  unfold Emulator.set_reg regSet
  by_cases h : r = Register.Zero
  · simp [h]
  · simp only [ne_eq, h, not_false_eq_true, if_true]
    exact Function.update_noteq (fun hz => h hz.symm) v emu.state.regs

/-- C3: writes to register slot 0 are silently dropped (`set_reg` with
`Register::Zero` is the identity on the whole emulator), reads of slot 0
return 0, and under any sequence of `set_reg` operations the stored slot
0 is untouched and still reads as zero. -/
theorem c3_zero_register_hardwired (emu : Emulator) (v : Nat)
    (ops : List (Register × Nat)) :
    emu.set_reg Register.Zero v = emu ∧
    emu.reg Register.Zero = 0 ∧
    (ops.foldl (fun e p => e.set_reg p.1 p.2) emu).state.regs Register.Zero
      = emu.state.regs Register.Zero ∧
    (ops.foldl (fun e p => e.set_reg p.1 p.2) emu).reg Register.Zero = 0 := by
  refine ⟨?_, ?_, ?_, ?_⟩
  · show { emu with state := { emu.state with regs := regSet emu.state.regs Register.Zero v } } = emu
    rw [regSet_zero_eq]
  · exact regGet_zero_eq emu.state.regs
  · induction ops generalizing emu with
    | nil => rfl
    | cons p t ih => rw [List.foldl_cons, ih, set_reg_slot_zero]
  · exact regGet_zero_eq _

/-- C10: after `self.reset(&other)` the register array equals `other`'s
and the open-file table equals `other`'s element for element (any extra
descriptors opened by `self` since the fork are discarded by the
`clear`/`extend_from_slice` pair). -/
theorem c10_reset_copies_regs_and_files (emu other : Emulator) :
    (emu.reset other).state.regs = other.state.regs ∧
    (emu.reset other).files = other.files ∧
    (emu.reset other).files.toList.length = other.files.toList.length :=
  ⟨rfl, rfl, rfl⟩

/-- C8: `is_crash` yields `Some (fault_kind, addr)` exactly for the seven
crash-class exits and `None` for all others, and `AddressType` buckets an
address by its signed 64-bit value: Null on `[0, 32768)`, Negative on
`[-32768, 0)`, Normal otherwise. -/
theorem c8_is_crash_and_buckets :
    (∀ a l, (VmExit.AddressMiss a l).is_crash = some (FaultType.Bounds, a)) ∧
    (∀ a, (VmExit.ReadFault a).is_crash = some (FaultType.Read, a)) ∧
    (∀ a, (VmExit.ExecFault a).is_crash = some (FaultType.Exec, a)) ∧
    (∀ a, (VmExit.UninitFault a).is_crash = some (FaultType.Uninit, a)) ∧
    (∀ a, (VmExit.WriteFault a).is_crash = some (FaultType.Write, a)) ∧
    (∀ a, (VmExit.InvalidFree a).is_crash = some (FaultType.Free, a)) ∧
    VmExit.InvalidOpcode.is_crash = some (FaultType.InvalidOpcode, 0) ∧
    VmExit.Syscall.is_crash = none ∧
    VmExit.Exit.is_crash = none ∧
    VmExit.Ebreak.is_crash = none ∧
    VmExit.Timeout.is_crash = none ∧
    VmExit.SyscallIntegerOverflow.is_crash = none ∧
    VmExit.AddressIntegerOverflow.is_crash = none ∧
    (∀ a : Nat,
      (AddressType.ofAddr a = .Null ↔ 0 ≤ sext 64 a ∧ sext 64 a < 32768) ∧
      (AddressType.ofAddr a = .Negative ↔ -32768 ≤ sext 64 a ∧ sext 64 a < 0) ∧
      (AddressType.ofAddr a = .Normal ↔
        ¬(-32768 ≤ sext 64 a ∧ sext 64 a < 32768))) := by
  refine ⟨fun a l => rfl, fun a => rfl, fun a => rfl, fun a => rfl, fun a => rfl,
    fun a => rfl, rfl, rfl, rfl, rfl, rfl, rfl, rfl, fun a => ?_⟩
  unfold AddressType.ofAddr
  dsimp only
  split_ifs with h1 h2 <;> refine ⟨?_, ?_, ?_⟩ <;> constructor <;> intro hx <;>
    first
      | rfl
      | omega
      | exact absurd hx (by decide)

/-- C4: running `addi x1, x0, 5 ; addi x2, x1, -3 ; ecall` from its first
instruction returns the `Syscall` exit after retiring three instructions,
with x1 = 5, x2 = 2, and the PC left at the address of the `ecall`
(address 8): non-branch instructions advance the PC by 4 after
retirement, and the ECALL exit does not advance it. -/
theorem c4_addi_ecall_scenario :
    (run_emu 4 c4Emu 0).vmexit? = some VmExit.Syscall ∧
    (run_emu 4 c4Emu 0).finalInstrs = 3 ∧
    (run_emu 4 c4Emu 0).finalEmu.reg ⟨1, by decide⟩ = 5 ∧
    (run_emu 4 c4Emu 0).finalEmu.reg ⟨2, by decide⟩ = 2 ∧
    (run_emu 4 c4Emu 0).finalEmu.reg Register.Pc = 8 := by
  refine ⟨?_, ?_, ?_, ?_, ?_⟩ <;> decide

/-- C1 (code bug): on a guest whose current, executable instruction is
EBREAK (encoding `0x00100073`), `run_emu` does not return the `Ebreak`
exit: it hits the source's `panic!("EBREAK")` and aborts. -/
theorem c1_run_emu_panics_on_ebreak :
    ebreakEmu.memory.read_perms (ebreakEmu.reg Register.Pc) 4 PERM_EXEC
      = Except.ok 0x00100073 ∧
    (run_emu 1 ebreakEmu 0).panicked? = some "EBREAK" ∧
    (run_emu 1 ebreakEmu 0).vmexit? = none := by
  refine ⟨by rfl, by decide, by decide⟩

/-- C2 (counterexample): the interpreter path never checks the timeout.
On a guest whose timeout threshold is 0 and whose retired-instruction
count is already 5, `run_emu` does not stop with `Timeout`: it executes
the ECALL at the current PC and returns `Syscall` with the count grown
to 6. -/
theorem c2_counterexample_no_timeout_in_interpreter :
    ecallTimeoutEmu.state.timeout = 0 ∧
    5 > ecallTimeoutEmu.state.timeout ∧
    (run_emu 1 ecallTimeoutEmu 5).vmexit? = some VmExit.Syscall ∧
    (run_emu 1 ecallTimeoutEmu 5).finalInstrs = 6 := by
  refine ⟨rfl, by decide, by decide, by decide⟩

/-- C5: when the PC is not 4-byte aligned, or the 4-byte fetch at the PC
fails the `EXEC` permission check, `run_emu` returns `ExecFault` carrying
the faulting address (the PC itself on misalignment, the faulting byte of
the fetch otherwise) without executing anything: the emulator and the
retired-instruction counter are returned unchanged. -/
theorem c5_fetch_fault (fuel : Nat) (emu : Emulator) (n : Nat) :
    (emu.reg Register.Pc % 4 ≠ 0 →
      run_emu (fuel + 1) emu n
        = .exit emu n (.ExecFault (emu.reg Register.Pc))) ∧
    (∀ f, emu.reg Register.Pc % 4 = 0 →
      emu.memory.read_perms (emu.reg Register.Pc) 4 PERM_EXEC = .error f →
      run_emu (fuel + 1) emu n = .exit emu n (.ExecFault f.crashAddr)) := by
  constructor
  · intro h
    simp [run_emu, iterOnce, h]
  · intro f h1 h2
    simp [run_emu, iterOnce, h1, h2]

theorem c5_fetch_fault_witness :
    run_emu 1 misEmu 0 = .exit misEmu 0 (.ExecFault 2) ∧
    run_emu 1 npEmu 0 = .exit npEmu 0 (.ExecFault 0) :=
  ⟨(c5_fetch_fault 0 misEmu 0).1 (by decide),
   (c5_fetch_fault 0 npEmu 0).2 (.ReadFault 0) (by decide) rfl⟩

/-- C6: on reaching an executable instruction at a PC with a registered
breakpoint callback, `run_emu` first runs the callback.  If the callback
moved the PC, the loop restarts at the mutated state without executing
the fetched instruction and without incrementing the retired-instruction
counter; if the PC is unchanged, the original fetched instruction is
executed normally (counter incremented by `execStep`). -/
theorem c6_breakpoint_callback (fuel : Nat) (emu : Emulator) (n : Nat)
    (pc inst : Nat) (cb : BreakpointCallback) (regs1 : RegFile) (m1 : Mmu)
    (hpc : emu.reg Register.Pc = pc)
    (hal : pc % 4 = 0)
    (hfetch : emu.memory.read_perms pc 4 PERM_EXEC = Except.ok inst)
    (hbp : lookupBp emu.breakpoints pc = some cb)
    (hcb : cb emu.state.regs emu.memory = (regs1, m1, none)) :
    ((updRM emu regs1 m1).reg Register.Pc ≠ pc →
      run_emu (fuel + 1) emu n = run_emu fuel (updRM emu regs1 m1) n) ∧
    ((updRM emu regs1 m1).reg Register.Pc = pc →
      run_emu (fuel + 1) emu n =
        match execStep (updRM emu regs1 m1) n pc inst with
        | .cont emu2 n2 => run_emu fuel emu2 n2
        | .stop emu2 n2 e => .exit emu2 n2 e
        | .crash emu2 n2 msg => .panicked emu2 n2 msg) := by
  constructor
  · intro h
    simp [run_emu, iterOnce, hpc, hal, hfetch, hbp, hcb, h]
  · intro h
    simp [run_emu, iterOnce, hpc, hal, hfetch, hbp, hcb, h]

theorem c6_breakpoint_callback_witness :
    run_emu 1 bpEmu 0 =
      run_emu 0 (updRM bpEmu (regSet bpEmu.state.regs Register.Pc 8)
        bpEmu.memory) 0 :=
  (c6_breakpoint_callback 0 bpEmu 0 0 0x73 cbSetPc8
    (regSet bpEmu.state.regs Register.Pc 8) bpEmu.memory
    rfl (by decide) rfl rfl rfl).1 (by decide)


theorem MemErr.toVmExit_ne_timeout (f : MemErr) :
    ¬ f.toVmExit = VmExit.Timeout := by
  cases f <;> simp [MemErr.toVmExit]

theorem loadStep_no_timeout (regs : RegFile) (m : Mmu) (rd : Register)
    (addr w : Nat) (conv : Nat → Nat) :
    loadStep regs m rd addr w conv ≠ .vmexit .Timeout := by
  unfold loadStep
  split
  · intro h; injection h with h2; exact MemErr.toVmExit_ne_timeout _ h2
  · intro h; cases h

theorem storeStep_no_timeout (regs : RegFile) (m : Mmu) (addr w v : Nat) :
    storeStep regs m addr w v ≠ .vmexit .Timeout := by
  unfold storeStep
  split
  · intro h; injection h with h2; exact MemErr.toVmExit_ne_timeout _ h2
  · intro h; cases h

theorem execBranch_no_vmexit (pc : Nat) (i : Btype) (regs : RegFile)
    (m : Mmu) (e : VmExit) : execBranch pc i regs m ≠ .vmexit e := by
  unfold execBranch
  dsimp only
  repeat' split
  all_goals intro h
  all_goals cases h

theorem execLoad_no_timeout (i : Itype) (regs : RegFile) (m : Mmu) :
    execLoad i regs m ≠ .vmexit .Timeout := by
  unfold execLoad
  dsimp only
  repeat' split
  all_goals first
    | exact loadStep_no_timeout _ _ _ _ _ _
    | (intro h; cases h)

theorem execStore_no_timeout (i : Stype) (regs : RegFile) (m : Mmu) :
    execStore i regs m ≠ .vmexit .Timeout := by
  unfold execStore
  dsimp only
  repeat' split
  all_goals first
    | exact storeStep_no_timeout _ _ _ _ _
    | (intro h; cases h)

theorem execOpImm_no_vmexit (inst : Nat) (i : Itype) (regs : RegFile)
    (m : Mmu) (e : VmExit) : execOpImm inst i regs m ≠ .vmexit e := by
  unfold execOpImm
  dsimp only
  repeat' split
  all_goals intro h
  all_goals cases h

set_option maxHeartbeats 3200000 in
theorem execOp_no_vmexit (i : Rtype) (regs : RegFile) (m : Mmu)
    (e : VmExit) : execOp i regs m ≠ .vmexit e := by
  unfold execOp
  dsimp only
  repeat' split
  all_goals intro h
  all_goals cases h

set_option maxHeartbeats 3200000 in
theorem execOp32_no_vmexit (i : Rtype) (regs : RegFile) (m : Mmu)
    (e : VmExit) : execOp32 i regs m ≠ .vmexit e := by
  unfold execOp32
  dsimp only
  repeat' split
  all_goals intro h
  all_goals cases h

theorem execOpImm32_no_vmexit (inst : Nat) (i : Itype) (regs : RegFile)
    (m : Mmu) (e : VmExit) : execOpImm32 inst i regs m ≠ .vmexit e := by
  unfold execOpImm32
  dsimp only
  repeat' split
  all_goals intro h
  all_goals cases h

theorem execSystem_no_timeout (inst : Nat) :
    execSystem inst ≠ .vmexit .Timeout := by
  unfold execSystem
  repeat' split
  all_goals intro h
  all_goals cases h

theorem execInst_no_timeout (pc inst : Nat) (regs : RegFile) (m : Mmu) :
    execInst pc inst regs m ≠ .vmexit .Timeout := by
  unfold execInst
  dsimp only
  repeat' split
  all_goals first
    | exact execBranch_no_vmexit _ _ _ _ _
    | exact execLoad_no_timeout _ _ _
    | exact execStore_no_timeout _ _ _
    | exact execOpImm_no_vmexit _ _ _ _ _
    | exact execOp_no_vmexit _ _ _ _
    | exact execOp32_no_vmexit _ _ _ _
    | exact execSystem_no_timeout _
    | exact execOpImm32_no_vmexit _ _ _ _ _
    | (intro h; cases h)

theorem lookupBp_nil (pc : Nat) : lookupBp [] pc = none := rfl

theorem updRM_breakpoints (emu : Emulator) (r : RegFile) (m : Mmu) :
    (updRM emu r m).breakpoints = emu.breakpoints := rfl

theorem iterOnce_cont_bp {emu : Emulator} {n : Nat} {e1 : Emulator} {n1 : Nat}
    (h0 : emu.breakpoints = []) (h : iterOnce emu n = .cont e1 n1) :
    e1.breakpoints = [] := by
  unfold iterOnce at h
  rw [h0] at h
  simp only [lookupBp_nil] at h
  split at h
  · cases h
  · split at h
    · cases h
    · unfold execStep at h
      split at h
      · split at h <;> (cases h; rw [updRM_breakpoints, h0])
      · cases h
      · cases h

theorem iterOnce_stop_ne_timeout {emu : Emulator} {n : Nat} {e1 : Emulator}
    {n1 : Nat} {x : VmExit}
    (h0 : emu.breakpoints = []) (h : iterOnce emu n = .stop e1 n1 x) :
    x ≠ .Timeout := by
  unfold iterOnce at h
  rw [h0] at h
  simp only [lookupBp_nil] at h
  split at h
  · cases h; simp
  · split at h
    · cases h; simp
    · unfold execStep at h
      split at h
      · split at h <;> cases h
      · rename_i e he
        cases h
        exact fun hx => execInst_no_timeout _ _ _ _ (hx ▸ he)
      · cases h

/-- C2 (amended): the interpreter entry `run_emu` performs no timeout
check at all: with no registered breakpoints (a callback is host code and
could inject any exit), a run never stops with the `Timeout` exit, no
matter how far the retired-instruction count exceeds the guest-state
timeout threshold.  (Only JIT-translated blocks compare `instrs_execed`
against `timeout`.) -/
theorem c2_interpreter_never_times_out (fuel : Nat) (emu : Emulator)
    (n : Nat) (h : emu.breakpoints = []) :
    (run_emu fuel emu n).vmexit? ≠ some VmExit.Timeout := by
  induction fuel generalizing emu n with
  | zero => simp [run_emu, RunResult.vmexit?]
  | succ f ih =>
    rw [run_emu]
    cases hio : iterOnce emu n with
    | cont e1 n1 => exact ih e1 n1 (iterOnce_cont_bp h hio)
    | stop e1 n1 x =>
      simp only [RunResult.vmexit?]
      exact fun hx => iterOnce_stop_ne_timeout h hio (Option.some.inj hx)
    | crash e1 n1 msg => simp [RunResult.vmexit?]

theorem c2_interpreter_never_times_out_witness :
    (run_emu 1 ecallTimeoutEmu 5).vmexit? ≠ some VmExit.Timeout :=
  c2_interpreter_never_times_out 1 ecallTimeoutEmu 5 rfl

theorem setNonRegs_reg (emu : Emulator) (s : GuestState) (r : Register) :
    (setNonRegs emu s).reg r = emu.reg r := rfl

theorem setNonRegs_memory (emu : Emulator) (s : GuestState) :
    (setNonRegs emu s).memory = emu.memory := rfl

theorem setNonRegs_breakpoints (emu : Emulator) (s : GuestState) :
    (setNonRegs emu s).breakpoints = emu.breakpoints := rfl

theorem setNonRegs_regs (emu : Emulator) (s : GuestState) :
    (setNonRegs emu s).state.regs = emu.state.regs := rfl

theorem updRM_setNonRegs (emu : Emulator) (s : GuestState) (r : RegFile)
    (m : Mmu) : updRM (setNonRegs emu s) r m = setNonRegs (updRM emu r m) s := rfl

theorem finalEmu_mapEmu (f : Emulator → Emulator) (r : RunResult) :
    (r.mapEmu f).finalEmu = f r.finalEmu := by
  cases r <;> rfl

theorem execStep_setNonRegs (emu : Emulator) (s : GuestState) (n pc inst : Nat) :
    execStep (setNonRegs emu s) n pc inst
      = (execStep emu n pc inst).mapEmu (fun e => setNonRegs e s) := by
  unfold execStep
  simp only [setNonRegs_regs, setNonRegs_memory]
  cases execInst pc inst emu.state.regs emu.memory with
  | ok regs1 m1 jumped =>
    cases jumped <;> simp [IterOut.mapEmu, updRM_setNonRegs]
  | vmexit e => simp [IterOut.mapEmu]
  | panicMsg msg => simp [IterOut.mapEmu]

theorem iterOnce_setNonRegs (emu : Emulator) (s : GuestState) (n : Nat) :
    iterOnce (setNonRegs emu s) n
      = (iterOnce emu n).mapEmu (fun e => setNonRegs e s) := by
  unfold iterOnce
  simp only [setNonRegs_reg, setNonRegs_memory, setNonRegs_breakpoints,
    setNonRegs_regs]
  split
  · simp [IterOut.mapEmu]
  · cases emu.memory.read_perms (emu.reg Register.Pc) 4 PERM_EXEC with
    | error f => simp [IterOut.mapEmu]
    | ok inst =>
      cases lookupBp emu.breakpoints (emu.reg Register.Pc) with
      | none => simp [execStep_setNonRegs]
      | some cb =>
        simp only [updRM_setNonRegs]
        cases (cb emu.state.regs emu.memory).2.2 with
        | some e => simp [IterOut.mapEmu]
        | none =>
          simp only [Emulator.reg, setNonRegs_regs]
          split <;> simp [IterOut.mapEmu, execStep_setNonRegs, setNonRegs_reg]

theorem run_emu_setNonRegs (fuel : Nat) (emu : Emulator) (n : Nat)
    (s : GuestState) :
    run_emu fuel (setNonRegs emu s) n
      = (run_emu fuel emu n).mapEmu (fun e => setNonRegs e s) := by
  induction fuel generalizing emu n with
  | zero => rfl
  | succ f ih =>
    rw [run_emu, run_emu, iterOnce_setNonRegs]
    cases iterOnce emu n <;> simp [IterOut.mapEmu, RunResult.mapEmu, ih]

/-- C9: the interpreter uses only the register array of the guest-state
record.  Formally: replacing every non-register field of the guest state
by arbitrary values commutes with `run_emu` (so those fields are neither
read — the run is unchanged — nor written — they pass through), and in
particular every non-register field of the final guest state equals the
corresponding input field. -/
theorem c9_run_emu_touches_only_registers (fuel : Nat) (emu : Emulator) (n : Nat) (s : GuestState) :
    run_emu fuel (setNonRegs emu s) n
      = (run_emu fuel emu n).mapEmu (fun e => setNonRegs e s) ∧
    ((run_emu fuel emu n).finalEmu.state.exit_reason = emu.state.exit_reason ∧
     (run_emu fuel emu n).finalEmu.state.reenter_pc = emu.state.reenter_pc ∧
     (run_emu fuel emu n).finalEmu.state.cov_from = emu.state.cov_from ∧
     (run_emu fuel emu n).finalEmu.state.cov_to = emu.state.cov_to ∧
     (run_emu fuel emu n).finalEmu.state.memory = emu.state.memory ∧
     (run_emu fuel emu n).finalEmu.state.permissions = emu.state.permissions ∧
     (run_emu fuel emu n).finalEmu.state.dirty = emu.state.dirty ∧
     (run_emu fuel emu n).finalEmu.state.dirty_idx = emu.state.dirty_idx ∧
     (run_emu fuel emu n).finalEmu.state.dirty_bitmap = emu.state.dirty_bitmap ∧
     (run_emu fuel emu n).finalEmu.state.trace_buffer = emu.state.trace_buffer ∧
     (run_emu fuel emu n).finalEmu.state.trace_idx = emu.state.trace_idx ∧
     (run_emu fuel emu n).finalEmu.state.trace_len = emu.state.trace_len ∧
     (run_emu fuel emu n).finalEmu.state.cov_bitmap = emu.state.cov_bitmap ∧
     (run_emu fuel emu n).finalEmu.state.instrs_execed = emu.state.instrs_execed ∧
     (run_emu fuel emu n).finalEmu.state.timeout = emu.state.timeout) := by
  have h1 : run_emu fuel emu n
      = (run_emu fuel emu n).mapEmu (fun e => setNonRegs e emu.state) :=
    run_emu_setNonRegs fuel emu n emu.state
  refine ⟨run_emu_setNonRegs fuel emu n s, ?_, ?_, ?_, ?_, ?_, ?_, ?_, ?_, ?_,
    ?_, ?_, ?_, ?_, ?_, ?_⟩ <;> (rw [h1, finalEmu_mapEmu]; rfl)

theorem nat_and_63 (b : Nat) : b &&& 63 = b % 64 :=
  Nat.and_pow_two_sub_one_eq_mod b 6

theorem nat_and_31 (b : Nat) : b &&& 31 = b % 32 :=
  Nat.and_pow_two_sub_one_eq_mod b 5

theorem sll_step (a b : Nat) :
    stepReg (execInst 0 sllInst (testRegs a b) mmu0) ⟨7, by decide⟩
      = a * 2 ^ (b % 64) % 2 ^ 64 := by
  show (a <<< (b &&& 63)) % 2 ^ 64 = a * 2 ^ (b % 64) % 2 ^ 64
  rw [nat_and_63, Nat.shiftLeft_eq]

theorem mod32_of_mod2pow32 (b : Nat) : b % 2 ^ 32 % 32 = b % 32 :=
  Nat.mod_mod_of_dvd b (by norm_num)

theorem sext_mod_self (w v : Nat) : sext w (v % 2 ^ w) = sext w v := by
  simp [sext, Nat.mod_mod_of_dvd v dvd_rfl]

theorem srl_step (a b : Nat) :
    stepReg (execInst 0 srlInst (testRegs a b) mmu0) ⟨7, by decide⟩
      = a / 2 ^ (b % 64) := by
  show a >>> (b &&& 63) = a / 2 ^ (b % 64)
  rw [nat_and_63, Nat.shiftRight_eq_div_pow]

theorem sra_step (a b : Nat) :
    stepReg (execInst 0 sraInst (testRegs a b) mmu0) ⟨7, by decide⟩
      = toU64 (sext 64 a / (2 : Int) ^ (b % 64)) := by
  show toU64 (sext 64 a >>> (b &&& 63)) = toU64 (sext 64 a / (2 : Int) ^ (b % 64))
  rw [nat_and_63, Int.shiftRight_eq_div_pow]
  norm_cast

theorem sllw_step (a b : Nat) :
    stepReg (execInst 0 sllwInst (testRegs a b) mmu0) ⟨7, by decide⟩
      = toU64 (sext 32 (a % 2 ^ 32 * 2 ^ (b % 32) % 2 ^ 32)) := by
  show toU64 (sext 32 (((a % 2 ^ 32) <<< (b % 2 ^ 32 &&& 31)) % 2 ^ 32))
      = toU64 (sext 32 (a % 2 ^ 32 * 2 ^ (b % 32) % 2 ^ 32))
  rw [nat_and_31, mod32_of_mod2pow32, Nat.shiftLeft_eq]

theorem srlw_step (a b : Nat) :
    stepReg (execInst 0 srlwInst (testRegs a b) mmu0) ⟨7, by decide⟩
      = toU64 (sext 32 (a % 2 ^ 32 / 2 ^ (b % 32))) := by
  show toU64 (sext 32 ((a % 2 ^ 32) >>> (b % 2 ^ 32 &&& 31)))
      = toU64 (sext 32 (a % 2 ^ 32 / 2 ^ (b % 32)))
  rw [nat_and_31, mod32_of_mod2pow32, Nat.shiftRight_eq_div_pow]

theorem sraw_step (a b : Nat) :
    stepReg (execInst 0 srawInst (testRegs a b) mmu0) ⟨7, by decide⟩
      = toU64 (sext 32 a / (2 : Int) ^ (b % 32)) := by
  show toU64 (sext 32 (a % 2 ^ 32) >>> (b % 2 ^ 32 &&& 31))
      = toU64 (sext 32 a / (2 : Int) ^ (b % 32))
  rw [nat_and_31, mod32_of_mod2pow32, sext_mod_self, Int.shiftRight_eq_div_pow]
  norm_cast

/-- C7: shift semantics of the interpreter.  SLL/SRL/SRA use only the low
6 bits of rs2 as shift amount; SLLW/SRLW/SRAW use only the low 5 bits of
rs2, applied to the low 32 bits of rs1, with the 32-bit result
sign-extended.  SRL/SRLW shift logically (unsigned division by a power of
two); SRA/SRAW shift arithmetically (floor division of the sign-extended
value, propagating the sign bit). -/
theorem c7_shift_semantics (a b : Nat) :
    (stepReg (execInst 0 sllInst (testRegs a b) mmu0) ⟨7, by decide⟩
       = a * 2 ^ (b % 64) % 2 ^ 64) ∧
    (stepReg (execInst 0 srlInst (testRegs a b) mmu0) ⟨7, by decide⟩
       = a / 2 ^ (b % 64)) ∧
    (stepReg (execInst 0 sraInst (testRegs a b) mmu0) ⟨7, by decide⟩
       = toU64 (sext 64 a / (2 : Int) ^ (b % 64))) ∧
    (stepReg (execInst 0 sllwInst (testRegs a b) mmu0) ⟨7, by decide⟩
       = toU64 (sext 32 (a % 2 ^ 32 * 2 ^ (b % 32) % 2 ^ 32))) ∧
    (stepReg (execInst 0 srlwInst (testRegs a b) mmu0) ⟨7, by decide⟩
       = toU64 (sext 32 (a % 2 ^ 32 / 2 ^ (b % 32)))) ∧
    (stepReg (execInst 0 srawInst (testRegs a b) mmu0) ⟨7, by decide⟩
       = toU64 (sext 32 a / (2 : Int) ^ (b % 32))) ∧
    (∀ b2, b2 % 64 = b % 64 →
      stepReg (execInst 0 sllInst (testRegs a b2) mmu0) ⟨7, by decide⟩
        = stepReg (execInst 0 sllInst (testRegs a b) mmu0) ⟨7, by decide⟩ ∧
      stepReg (execInst 0 srlInst (testRegs a b2) mmu0) ⟨7, by decide⟩
        = stepReg (execInst 0 srlInst (testRegs a b) mmu0) ⟨7, by decide⟩ ∧
      stepReg (execInst 0 sraInst (testRegs a b2) mmu0) ⟨7, by decide⟩
        = stepReg (execInst 0 sraInst (testRegs a b) mmu0) ⟨7, by decide⟩) ∧
    (∀ b2, b2 % 32 = b % 32 →
      stepReg (execInst 0 sllwInst (testRegs a b2) mmu0) ⟨7, by decide⟩
        = stepReg (execInst 0 sllwInst (testRegs a b) mmu0) ⟨7, by decide⟩ ∧
      stepReg (execInst 0 srlwInst (testRegs a b2) mmu0) ⟨7, by decide⟩
        = stepReg (execInst 0 srlwInst (testRegs a b) mmu0) ⟨7, by decide⟩ ∧
      stepReg (execInst 0 srawInst (testRegs a b2) mmu0) ⟨7, by decide⟩
        = stepReg (execInst 0 srawInst (testRegs a b) mmu0) ⟨7, by decide⟩) ∧
    (∀ a2, a2 % 2 ^ 32 = a % 2 ^ 32 →
      stepReg (execInst 0 sllwInst (testRegs a2 b) mmu0) ⟨7, by decide⟩
        = stepReg (execInst 0 sllwInst (testRegs a b) mmu0) ⟨7, by decide⟩ ∧
      stepReg (execInst 0 srlwInst (testRegs a2 b) mmu0) ⟨7, by decide⟩
        = stepReg (execInst 0 srlwInst (testRegs a b) mmu0) ⟨7, by decide⟩ ∧
      stepReg (execInst 0 srawInst (testRegs a2 b) mmu0) ⟨7, by decide⟩
        = stepReg (execInst 0 srawInst (testRegs a b) mmu0) ⟨7, by decide⟩) := by
  refine ⟨sll_step a b, srl_step a b, sra_step a b, sllw_step a b,
    srlw_step a b, sraw_step a b, ?_, ?_, ?_⟩
  · intro b2 hb
    refine ⟨?_, ?_, ?_⟩ <;> simp only [sll_step, srl_step, sra_step, hb]
  · intro b2 hb
    refine ⟨?_, ?_, ?_⟩ <;> simp only [sllw_step, srlw_step, sraw_step, hb]
  · intro a2 ha
    refine ⟨?_, ?_, ?_⟩
    · simp only [sllw_step, ha]
    · simp only [srlw_step, ha]
    · simp only [sraw_step]
      rw [← sext_mod_self 32 a2, ha, sext_mod_self]

theorem c7_shift_semantics_witness :
    stepReg (execInst 0 sraInst (testRegs (2 ^ 63) 65) mmu0) ⟨7, by decide⟩
      = stepReg (execInst 0 sraInst (testRegs (2 ^ 63) 1) mmu0) ⟨7, by decide⟩ :=
  ((c7_shift_semantics (2 ^ 63) 1).2.2.2.2.2.2.1 65 (by decide)).2.2
